import Mathlib

/-!
Shallow embedding of the transfer-management single-page application in
src/src/App.tsx, together with proofs about its validation, transfer,
provisioning, login, deletion and view-derivation logic.

Modelling conventions, chosen to match the JavaScript source:

* JavaScript numbers are embedded as `JsNum`: NaN, +Infinity, -Infinity, or a
  finite value.  Finite values are represented exactly as rationals; every
  arithmetic operation the app performs (subtraction, addition, comparison)
  is mirrored with IEEE-754 special-value semantics (NaN is incomparable,
  Infinity dominates).  The claims under study never depend on double
  rounding, only on exact small decimal values and on the special values.
* `parseFloat` is embedded following the ECMAScript definition: leading
  whitespace is skipped, an optional sign is read, then either the literal
  "Infinity" or the longest decimal-literal prefix (digits, optional point,
  optional exponent); if no prefix parses the result is NaN.
* Transaction dates are ISO-8601 strings in the source and are compared with
  the JavaScript string ordering.  For same-era ISO timestamps that ordering
  coincides with the numeric ordering of the underlying epoch time, so dates
  are embedded as epoch milliseconds (`Nat`) and compared numerically.
* Remote-store effects (supabase insert/update/delete calls) are reified as
  a `List StoreOp` returned next to the new state; handlers that perform no
  remote call return the empty list.  For the commit handlers the successful
  acknowledgment path of the source is modelled (the path each claim is
  about); a store failure leaves the remote effect prefix that was issued.
* `currentUser` is an `Option`; the source dereferences it with `!` inside
  handlers that are only reachable while logged in, and the model returns
  the state unchanged in the unreachable `none` case.
-/

/-- A JavaScript number: NaN, the two infinities, or a finite value
(represented exactly as a rational). -/
inductive JsNum where
  | nan
  | inf
  | negInf
  | num (q : ℚ)
deriving DecidableEq

/-- IEEE-754 strict less-than: false whenever either side is NaN. -/
def JsNum.jlt : JsNum → JsNum → Bool
  | .nan, _ => false
  | _, .nan => false
  | .negInf, .negInf => false
  | .negInf, _ => true
  | _, .negInf => false
  | .inf, _ => false
  | _, .inf => true
  | .num a, .num b => decide (a < b)

/-- IEEE-754 strict greater-than, as used by the source's `>` checks. -/
def JsNum.jgt (a b : JsNum) : Bool := JsNum.jlt b a

/-- True exactly on NaN, mirroring JavaScript's isNaN on a number. -/
def JsNum.isNaN : JsNum → Bool
  | .nan => true
  | _ => false

/-- IEEE-754 less-or-equal: false whenever either side is NaN. -/
def JsNum.jle (a b : JsNum) : Bool := JsNum.jlt a b || (!(JsNum.isNaN a) && a == b)

/-- IEEE-754 subtraction on the embedded numbers. -/
def JsNum.sub : JsNum → JsNum → JsNum
  | .nan, _ => .nan
  | _, .nan => .nan
  | .inf, .inf => .nan
  | .inf, _ => .inf
  | .negInf, .negInf => .nan
  | .negInf, _ => .negInf
  | _, .inf => .negInf
  | _, .negInf => .inf
  | .num a, .num b => .num (a - b)

/-- IEEE-754 addition on the embedded numbers. -/
def JsNum.add : JsNum → JsNum → JsNum
  | .nan, _ => .nan
  | _, .nan => .nan
  | .inf, .negInf => .nan
  | .inf, _ => .inf
  | .negInf, .inf => .nan
  | .negInf, _ => .negInf
  | _, .inf => .inf
  | _, .negInf => .negInf
  | .num a, .num b => .num (a + b)

/-- ECMAScript StrWhiteSpace characters skipped by parseFloat (the ASCII
subset; the app never feeds non-ASCII whitespace to parseFloat). -/
def jsWhitespace (c : Char) : Bool :=
  c == ' ' || c == '\t' || c == '\n' || c == '\r' || c == '\x0b' || c == '\x0c'

/-- Numeric value of a list of ASCII digits, most significant first. -/
def digitsVal (ds : List Char) : ℕ :=
  ds.foldl (fun n c => 10 * n + (c.toNat - 48)) 0

/-- Digits of an exponent part, negated for a minus sign; an exponent with
no digits contributes nothing, matching parseFloat's longest-valid-prefix
rule. -/
def parseExpDigits (neg : Bool) (ds : List Char) : ℤ :=
  let d := ds.takeWhile Char.isDigit
  if d.isEmpty then 0
  else if neg then -(digitsVal d : ℤ) else (digitsVal d : ℤ)

/-- Exponent part of a decimal literal: an e or E followed by an optional
sign and digits. -/
def parseExp (cs : List Char) : ℤ :=
  match cs with
  | 'e' :: '+' :: ds => parseExpDigits false ds
  | 'e' :: '-' :: ds => parseExpDigits true ds
  | 'e' :: ds => parseExpDigits false ds
  | 'E' :: '+' :: ds => parseExpDigits false ds
  | 'E' :: '-' :: ds => parseExpDigits true ds
  | 'E' :: ds => parseExpDigits false ds
  | _ => 0

/-- The rational m divided by ten to the fracLen, scaled by ten to the e:
the exact value of a decimal literal with integer-and-fraction digits m,
fracLen fraction digits and exponent e. -/
def decScale (m : ℤ) (fracLen : ℕ) (e : ℤ) : ℚ :=
  match e with
  | Int.ofNat k => mkRat (m * (10 : ℤ) ^ k) (10 ^ fracLen)
  | Int.negSucc k => mkRat m (10 ^ (fracLen + (k + 1)))

/-- Longest decimal-literal prefix of a character list, as an exact rational;
none when no digit is found before and after the optional point. -/
def parseDecimal (cs : List Char) : Option ℚ :=
  let ip := cs.takeWhile Char.isDigit
  let rest1 := cs.dropWhile Char.isDigit
  match rest1 with
  | '.' :: rest2 =>
    let fp := rest2.takeWhile Char.isDigit
    let rest3 := rest2.dropWhile Char.isDigit
    if ip.isEmpty && fp.isEmpty then none
    else some (decScale (digitsVal (ip ++ fp) : ℤ) fp.length (parseExp rest3))
  | _ =>
    if ip.isEmpty then none
    else some (decScale (digitsVal ip : ℤ) 0 (parseExp rest1))

/-- Body of parseFloat after the sign has been read: the literal Infinity,
or a decimal literal, or NaN. -/
def parseUnsigned (neg : Bool) (cs : List Char) : JsNum :=
  if cs.take 8 = "Infinity".toList then (if neg then JsNum.negInf else JsNum.inf)
  else
    match parseDecimal cs with
    | some q => JsNum.num (if neg then -q else q)
    | none => JsNum.nan

/-- ECMAScript parseFloat on the embedded numbers. -/
def parseFloat (s : String) : JsNum :=
  match s.toList.dropWhile jsWhitespace with
  | '+' :: rest => parseUnsigned false rest
  | '-' :: rest => parseUnsigned true rest
  | cs => parseUnsigned false cs

/-- Role union type of App.tsx. -/
inductive Role where
  | manager
  | employee
  | accountant
deriving DecidableEq

/-- View union type of App.tsx. -/
inductive View where
  | overview
  | transfer
  | history
  | users
deriving DecidableEq

/-- TransactionStatus union type of App.tsx. -/
inductive TxStatus where
  | pending
  | completed
  | failed
deriving DecidableEq

/-- UserAccount record of App.tsx; password is optional there. -/
structure UserAccount where
  id : String
  username : String
  password : Option String
  name : String
  role : Role
  balance : JsNum
  isUnlimited : Bool
deriving DecidableEq

/-- Transaction record of App.tsx; the date is an ISO string in the source,
embedded as epoch milliseconds because the source only ever compares such
strings with the ordering that coincides with the numeric one. -/
structure Transaction where
  id : String
  date : ℕ
  recipientName : String
  iban : String
  amount : JsNum
  status : TxStatus
  createdBy : String
deriving DecidableEq

/-- transferData form state of App.tsx: three raw strings. -/
structure TransferForm where
  recipientName : String
  iban : String
  amount : String
deriving DecidableEq

/-- newUserData form state of App.tsx. -/
structure NewUserForm where
  name : String
  username : String
  password : String
  role : Role
  balance : String
  isUnlimited : Bool
deriving DecidableEq

/-- UI notification: success or error with a message string. -/
inductive Notif where
  | success (message : String)
  | error (message : String)
deriving DecidableEq

/-- A remote-store call issued through the supabase client. -/
inductive StoreOp where
  | insertTransaction (row : Transaction)
  | insertUser (row : UserAccount)
  | updateUserBalance (id : String) (balance : JsNum)
  | deleteUser (id : String)
deriving DecidableEq

/-- The component state of App.tsx that the handlers under study read and
write. -/
structure AppState where
  users : List UserAccount
  currentUser : Option UserAccount
  currentView : View
  transactions : List Transaction
  transferData : TransferForm
  newUserData : NewUserForm
  notification : Option Notif
  isSubmitting : Bool
  showAnimation : Bool
deriving DecidableEq

/-- Notification messages of App.tsx, verbatim. -/
def MSG_FIELDS_REQUIRED : String := "يرجى تعبئة جميع الحقول المطلوبة."

/-- IBAN format error message of handleTransferSubmit. -/
def MSG_IBAN_FORMAT : String := "صيغة الآيبان غير مطابقة للمعايير."

/-- Invalid amount error message of handleTransferSubmit. -/
def MSG_AMOUNT_INVALID : String := "قيمة المبلغ غير صالحة."

/-- Four-hour cooldown error message of handleTransferSubmit. -/
def MSG_COOLDOWN : String := "لا يمكن التحويل لنفس الآيبان إلا مرة واحدة كل 4 ساعات."

/-- Insufficient balance error message of handleTransferSubmit. -/
def MSG_INSUFFICIENT_BALANCE : String := "الرصيد المتاح غير كافٍ لتنفيذ العملية."

/-- Success message shown after a committed transfer. -/
def MSG_TRANSFER_SUCCESS : String := "تم تنفيذ الحوالة بنجاح وبسرية تامة."

/-- Uniform invalid-credentials message of handleLoginAttempt. -/
def MSG_LOGIN_INVALID : String := "بيانات الاعتماد غير صالحة. تم تسجيل محاولة الدخول."

/-- Missing-fields error message of handleAddUser. -/
def MSG_ADD_FIELDS : String := "يرجى تعبئة جميع الحقول."

/-- Username-taken error message of handleAddUser. -/
def MSG_USERNAME_TAKEN : String := "معرف المستخدم محجوز مسبقاً."

/-- Invalid allocated-balance error message of handleAddUser. -/
def MSG_BALANCE_INVALID : String := "قيمة الرصيد غير صالحة."

/-- Allocation-exceeds-creator-balance error message of handleAddUser. -/
def MSG_ALLOCATION_INSUFFICIENT : String := "الرصيد المتاح لا يغطي التخصيص المطلوب."

/-- Success message of handleAddUser. -/
def MSG_USER_CREATED : String := "تم إنشاء الحساب وتخصيص الرصيد بنجاح."

/-- Self-delete rejection message of handleDeleteUser. -/
def MSG_SELF_DELETE : String := "لا يمكنك حذف حسابك الحالي."

/-- Success message of handleDeleteUser. -/
def MSG_USER_DELETED : String := "تم حذف المستخدم بنجاح."

/-- Result of a plain bracket property read on the IBAN_SHORTCUTS object
literal: an own entry (a string), an inherited Object.prototype member
reached through the prototype chain (a function, or for the proto accessor
the prototype object itself -- in either case not a string), or undefined
when the property exists nowhere on the chain. -/
inductive JsValue where
  | str (s : String)
  | protoMember (name : String)
  | undefined
deriving DecidableEq

/-- JavaScript truthiness of a bracket-read result: undefined is falsy, a
string is truthy when nonempty, and an inherited function or object is
always truthy. -/
def jsTruthy : JsValue → Bool
  | .str s => !s.isEmpty
  | .protoMember _ => true
  | .undefined => false

/-- The property names an object literal inherits from Object.prototype and
that a bracket read therefore finds (each bound to a function, except the
proto accessor, which yields the prototype object; all truthy). -/
def objectPrototypeKey (key : String) : Bool :=
  key == "constructor" || key == "hasOwnProperty" || key == "isPrototypeOf" ||
    key == "propertyIsEnumerable" || key == "toLocaleString" || key == "toString" ||
    key == "valueOf" || key == "__proto__" || key == "__defineGetter__" ||
    key == "__defineSetter__" || key == "__lookupGetter__" || key == "__lookupSetter__"

/-- The bracket read IBAN_SHORTCUTS applied to a key in App.tsx: the seven
own keys 1 through 7 map to the hard-coded IBAN strings; any inherited
Object.prototype name is found on the prototype chain; every other key
reads as undefined. -/
def IBAN_SHORTCUTS (key : String) : JsValue :=
  if key = "1" then JsValue.str "NL28INGB4492703411"
  else if key = "2" then JsValue.str "TG65259839229539759299235173"
  else if key = "3" then JsValue.str "PK66FZYW1614974124948885"
  else if key = "4" then JsValue.str "LB06943151658758328885851489"
  else if key = "5" then JsValue.str "IR0073982001IRKHM19"
  else if key = "6" then JsValue.str "AZ89MUAD91587132136941878378"
  else if key = "7" then JsValue.str "IR293671363912182346221147"
  else if objectPrototypeKey key then JsValue.protoMember key
  else JsValue.undefined

/-- The transfer form cell as the recipient-name onChange writes it: the
iban slot holds the raw JavaScript value the handler assigned, which is a
string on every path except a shortcut assignment of an inherited
prototype member.  The submit handlers elsewhere in this file read the
slot in the states where it holds a string. -/
structure TransferFormJs where
  recipientName : String
  iban : JsValue
  amount : String
deriving DecidableEq

/-- onChange handler of the transfer form's recipient-name input: always
updates recipientName, and when the bracket read of the typed value on
IBAN_SHORTCUTS is truthy also overwrites iban with whatever that read
produced. -/
def recipientNameChange (val : String) (td : TransferFormJs) : TransferFormJs :=
  let newData := { td with recipientName := val }
  if jsTruthy (IBAN_SHORTCUTS val) then { newData with iban := IBAN_SHORTCUTS val }
  else newData

/-- Uppercase A to Z, one character of the source's regex classes. -/
def isUpperAZ (c : Char) : Bool := 'A' ≤ c && c ≤ 'Z'

/-- One character of the class 0-9A-Z. -/
def isDigitOrUpper (c : Char) : Bool := c.isDigit || isUpperAZ c

/-- The anchored regex test of handleTransferSubmit: two leading uppercase
letters then one or more characters in 0-9A-Z, nothing else. -/
def ibanPatternTest (s : String) : Bool :=
  match s.toList with
  | c1 :: c2 :: rest => isUpperAZ c1 && isUpperAZ c2 && !rest.isEmpty && rest.all isDigitOrUpper
  | _ => false

/-- A string whose trim is falsy in JavaScript: every character is
whitespace (the source only ever trims to test blankness). -/
def trimBlank (s : String) : Bool :=
  s.toList.all jsWhitespace

/-- First validation of handleTransferSubmit: a required field is blank
(recipient name and iban are trimmed, amount is tested as a raw string). -/
def fieldsMissing (td : TransferForm) : Bool :=
  trimBlank td.recipientName || trimBlank td.iban || td.amount.isEmpty

/-- Second validation of handleTransferSubmit: the iban fails the regex or
is shorter than 15 characters. -/
def ibanBad (td : TransferForm) : Bool :=
  !ibanPatternTest td.iban || td.iban.length < 15

/-- Third validation of handleTransferSubmit: the parsed amount is NaN or
not strictly positive. -/
def amountBad (td : TransferForm) : Bool :=
  (parseFloat td.amount).isNaN || (parseFloat td.amount).jle (JsNum.num 0)

/-- Fourth validation of handleTransferSubmit: the session is an employee
and some listed transaction to the same iban by the same username is dated
strictly after now minus four hours. -/
def cooldownHit (now : ℕ) (cu : UserAccount) (td : TransferForm)
    (txs : List Transaction) : Bool :=
  cu.role == Role.employee &&
    txs.any (fun tx =>
      tx.iban == td.iban && tx.createdBy == cu.username &&
        decide (now - 4 * 60 * 60 * 1000 < tx.date))

/-- Fifth validation of handleTransferSubmit: a non-manager, non-unlimited
session asks for strictly more than its balance. -/
def balanceShort (cu : UserAccount) (td : TransferForm) : Bool :=
  cu.role != Role.manager && !cu.isUnlimited &&
    (parseFloat td.amount).jgt cu.balance

/-- The validation chain of handleTransferSubmit in source order, returning
the first error message, or none when every check passes. -/
def transferError (now : ℕ) (cu : UserAccount) (td : TransferForm)
    (txs : List Transaction) : Option String :=
  if fieldsMissing td then some MSG_FIELDS_REQUIRED
  else if ibanBad td then some MSG_IBAN_FORMAT
  else if amountBad td then some MSG_AMOUNT_INVALID
  else if cooldownHit now cu td txs then some MSG_COOLDOWN
  else if balanceShort cu td then some MSG_INSUFFICIENT_BALANCE
  else none

/-- handleTransferSubmit of App.tsx: ignores re-entry while submitting,
clears the notification, runs the validation chain, and on success flips
isSubmitting and showAnimation.  It performs no remote-store call. -/
def handleTransferSubmit (now : ℕ) (s : AppState) : AppState × List StoreOp :=
  if s.isSubmitting then (s, [])
  else
    match s.currentUser with
    | none => (s, [])
    | some cu =>
      match transferError now cu s.transferData s.transactions with
      | some msg => ({ s with notification := some (Notif.error msg) }, [])
      | none =>
        ({ s with notification := none, isSubmitting := true, showAnimation := true }, [])

/-- handleAnimationComplete of App.tsx, successful-sync path: builds the
completed transaction from the form, inserts it remotely, and for a
non-manager non-unlimited session also writes back balance minus amount
keyed by the user id, mirroring both into users, currentUser and the
newest-first transaction list. -/
def handleAnimationComplete (now : ℕ) (rid : String) (s : AppState) :
    AppState × List StoreOp :=
  match s.currentUser with
  | none => (s, [])
  | some cu =>
    let amountNum := parseFloat s.transferData.amount
    let newTransaction : Transaction :=
      { id := "TX-" ++ rid
        date := now
        recipientName := s.transferData.recipientName
        iban := s.transferData.iban
        amount := amountNum
        status := TxStatus.completed
        createdBy := cu.username }
    if cu.role != Role.manager && !cu.isUnlimited then
      let newBalance := cu.balance.sub amountNum
      ({ s with
          showAnimation := false
          users := s.users.map fun u =>
            if u.id == cu.id then { u with balance := newBalance } else u
          currentUser := some { cu with balance := newBalance }
          transactions := newTransaction :: s.transactions
          transferData := { recipientName := "", iban := "", amount := "" }
          isSubmitting := false
          notification := some (Notif.success MSG_TRANSFER_SUCCESS) },
        [StoreOp.insertTransaction newTransaction,
         StoreOp.updateUserBalance cu.id newBalance])
    else
      ({ s with
          showAnimation := false
          transactions := newTransaction :: s.transactions
          transferData := { recipientName := "", iban := "", amount := "" }
          isSubmitting := false
          notification := some (Notif.success MSG_TRANSFER_SUCCESS) },
        [StoreOp.insertTransaction newTransaction])

/-- Credential predicate of handleLoginAttempt: exact username and password
match. -/
def loginMatch (u p : String) (acc : UserAccount) : Bool :=
  acc.username == u && acc.password == some p

/-- handleLoginAttempt of App.tsx: first exact credential match becomes the
current user, the initial view is transfer for employees and overview
otherwise, and any failure returns the one generic message. -/
def handleLoginAttempt (u p : String) (s : AppState) : AppState × Option String :=
  match s.users.find? (loginMatch u p) with
  | some found =>
    ({ s with
        currentUser := some found
        currentView := if found.role == Role.employee then View.transfer else View.overview },
      none)
  | none => (s, some MSG_LOGIN_INVALID)

/-- First validation of handleAddUser: a required field is blank, the
balance being required only for non-unlimited accounts. -/
def addFieldsMissing (f : NewUserForm) : Bool :=
  f.name.isEmpty || f.username.isEmpty || f.password.isEmpty ||
    (!f.isUnlimited && f.balance.isEmpty)

/-- Second validation of handleAddUser: the username is already taken among
the loaded users. -/
def usernameTaken (users : List UserAccount) (f : NewUserForm) : Bool :=
  users.any fun u => u.username == f.username

/-- The balance handleAddUser allocates: the 999999999 sentinel for
unlimited accounts, otherwise the parsed balance field. -/
def allocatedBalance (f : NewUserForm) : JsNum :=
  if f.isUnlimited then JsNum.num 999999999 else parseFloat f.balance

/-- Third validation of handleAddUser: a non-unlimited allocation that is
NaN or negative. -/
def allocationInvalid (f : NewUserForm) : Bool :=
  !f.isUnlimited && ((allocatedBalance f).isNaN || (allocatedBalance f).jlt (JsNum.num 0))

/-- Fourth validation of handleAddUser: a non-manager, non-unlimited creator
allocating strictly more than its own balance. -/
def allocationExceeds (cu : UserAccount) (f : NewUserForm) : Bool :=
  cu.role != Role.manager && !cu.isUnlimited && (allocatedBalance f).jgt cu.balance

/-- The blank newUserData form the source resets to after success. -/
def emptyNewUserForm : NewUserForm :=
  { name := "", username := "", password := "", role := Role.employee,
    balance := "", isUnlimited := false }

/-- handleAddUser of App.tsx, successful-sync path: validates in source
order, inserts the new user row (balance stored as the sentinel for
unlimited accounts, Infinity locally), and for a non-manager non-unlimited
creator also debits the creator's balance by the allocation, mirroring into
users and currentUser. -/
def handleAddUser (rid : String) (s : AppState) : AppState × List StoreOp :=
  match s.currentUser with
  | none => (s, [])
  | some cu =>
    let f := s.newUserData
    if addFieldsMissing f then
      ({ s with notification := some (Notif.error MSG_ADD_FIELDS) }, [])
    else if usernameTaken s.users f then
      ({ s with notification := some (Notif.error MSG_USERNAME_TAKEN) }, [])
    else if allocationInvalid f then
      ({ s with notification := some (Notif.error MSG_BALANCE_INVALID) }, [])
    else if allocationExceeds cu f then
      ({ s with notification := some (Notif.error MSG_ALLOCATION_INSUFFICIENT) }, [])
    else
      let createdUser : UserAccount :=
        { id := "U-" ++ rid
          name := f.name
          username := f.username
          password := some f.password
          role := f.role
          balance := if f.isUnlimited then JsNum.inf else allocatedBalance f
          isUnlimited := f.isUnlimited }
      let storedRow : UserAccount := { createdUser with balance := allocatedBalance f }
      if cu.role != Role.manager && !cu.isUnlimited then
        let newManagerBalance := cu.balance.sub (allocatedBalance f)
        ({ s with
            users := (s.users.map fun u =>
              if u.id == cu.id then { u with balance := newManagerBalance } else u) ++ [createdUser]
            currentUser := some { cu with balance := newManagerBalance }
            newUserData := emptyNewUserForm
            notification := some (Notif.success MSG_USER_CREATED) },
          [StoreOp.insertUser storedRow,
           StoreOp.updateUserBalance cu.id newManagerBalance])
      else
        ({ s with
            users := s.users ++ [createdUser]
            newUserData := emptyNewUserForm
            notification := some (Notif.success MSG_USER_CREATED) },
          [StoreOp.insertUser storedRow])

/-- handleDeleteUser of App.tsx, with the window.confirm answer passed in:
rejects deleting the acting session's own id before asking, does nothing
without confirmation, and otherwise issues the store delete and filters the
local list (successful-sync path). -/
def handleDeleteUser (confirmOk : Bool) (userId : String) (s : AppState) :
    AppState × List StoreOp :=
  if s.currentUser.map (fun u => u.id) = some userId then
    ({ s with notification := some (Notif.error MSG_SELF_DELETE) }, [])
  else if !confirmOk then (s, [])
  else
    ({ s with
        users := s.users.filter fun u => u.id != userId
        notification := some (Notif.success MSG_USER_DELETED) },
      [StoreOp.deleteUser userId])

/-- Predicate the overview aggregates filter with: createdBy equals the
current session's username (false when logged out, as comparing with
undefined is in the source). -/
def ownTx (cu : Option UserAccount) (tx : Transaction) : Bool :=
  match cu with
  | some u => tx.createdBy == u.username
  | none => false

/-- totalTransferred derived value of App.tsx. -/
def totalTransferred (s : AppState) : JsNum :=
  (s.transactions.filter (ownTx s.currentUser)).foldl
    (fun sum tx => sum.add tx.amount) (JsNum.num 0)

/-- totalTransactions derived value of App.tsx. -/
def totalTransactions (s : AppState) : ℕ :=
  (s.transactions.filter (ownTx s.currentUser)).length

/-- recentTransactions derived value of App.tsx: the first five entries of
the full in-memory list. -/
def recentTransactions (s : AppState) : List Transaction :=
  s.transactions.take 5

/-- Concrete session used by the overview-aggregates claim: an accountant
whose username differs from the creator of the one listed transaction. -/
def aliceAccountant : UserAccount :=
  { id := "u1", username := "alice", password := some "pw", name := "Alice",
    role := Role.accountant, balance := JsNum.num 500, isUnlimited := false }

/-- A transaction created by another user, bob. -/
def bobTransaction : Transaction :=
  { id := "TX-1", date := 1700000000000, recipientName := "R",
    iban := "NL28INGB4492703411", amount := JsNum.num 30,
    status := TxStatus.completed, createdBy := "bob" }

/-- State in which alice is logged in while the transaction mirror holds
only bob's transaction. -/
def aliceStateWithBobTx : AppState :=
  { users := [aliceAccountant], currentUser := some aliceAccountant,
    currentView := View.overview, transactions := [bobTransaction],
    transferData := { recipientName := "", iban := "", amount := "" },
    newUserData := emptyNewUserForm, notification := none,
    isSubmitting := false, showAnimation := false }

/-- Concrete constrained session: an employee with balance 100. -/
def bobEmployee : UserAccount :=
  { id := "e1", username := "bob", password := some "pb", name := "Bob",
    role := Role.employee, balance := JsNum.num 100, isUnlimited := false }

/-- State in which bob has filled a valid transfer form for 30 USD. -/
def bobTransferState : AppState :=
  { users := [bobEmployee], currentUser := some bobEmployee,
    currentView := View.transfer, transactions := [],
    transferData := { recipientName := "Ali", iban := "NL28INGB4492703411", amount := "30" },
    newUserData := emptyNewUserForm, notification := none,
    isSubmitting := false, showAnimation := false }

/-- Employee with only 50 USD of balance. -/
def bobFifty : UserAccount :=
  { id := "e1", username := "bob", password := some "pb", name := "Bob",
    role := Role.employee, balance := JsNum.num 50, isUnlimited := false }

/-- State in which bobFifty asks to transfer 100 USD with a valid form. -/
def overdraftState : AppState :=
  { users := [bobFifty], currentUser := some bobFifty,
    currentView := View.transfer, transactions := [],
    transferData := { recipientName := "Ali", iban := "NL28INGB4492703411", amount := "100" },
    newUserData := emptyNewUserForm, notification := none,
    isSubmitting := false, showAnimation := false }

/-- State in which bobFifty asks to transfer 100 USD with a malformed iban. -/
def overdraftBadIbanState : AppState :=
  { users := [bobFifty], currentUser := some bobFifty,
    currentView := View.transfer, transactions := [],
    transferData := { recipientName := "Ali", iban := "XX1", amount := "100" },
    newUserData := emptyNewUserForm, notification := none,
    isSubmitting := false, showAnimation := false }

/-- Transaction by bob to the shortcut iban, dated one second before a
reference now of 1700000000000. -/
def recentBobTx : Transaction :=
  { id := "TX-0", date := 1699999999000, recipientName := "R",
    iban := "NL28INGB4492703411", amount := JsNum.num 10,
    status := TxStatus.completed, createdBy := "bob" }

/-- The same transaction dated exactly four hours and one second before the
reference now. -/
def oldBobTx : Transaction :=
  { id := "TX-0", date := 1699985599000, recipientName := "R",
    iban := "NL28INGB4492703411", amount := JsNum.num 10,
    status := TxStatus.completed, createdBy := "bob" }

/-- Bob resubmitting to the same iban with the recent transaction listed. -/
def cooldownRecentState : AppState :=
  { users := [bobEmployee], currentUser := some bobEmployee,
    currentView := View.transfer, transactions := [recentBobTx],
    transferData := { recipientName := "Ali", iban := "NL28INGB4492703411", amount := "30" },
    newUserData := emptyNewUserForm, notification := none,
    isSubmitting := false, showAnimation := false }

/-- Bob resubmitting to the same iban with only the four-hours-one-second
old transaction listed. -/
def cooldownOldState : AppState :=
  { users := [bobEmployee], currentUser := some bobEmployee,
    currentView := View.transfer, transactions := [oldBobTx],
    transferData := { recipientName := "Ali", iban := "NL28INGB4492703411", amount := "30" },
    newUserData := emptyNewUserForm, notification := none,
    isSubmitting := false, showAnimation := false }

/-- Bob resubmitting to the same iban during cooldown but with a blank
amount field. -/
def cooldownBlankAmountState : AppState :=
  { users := [bobEmployee], currentUser := some bobEmployee,
    currentView := View.transfer, transactions := [recentBobTx],
    transferData := { recipientName := "Ali", iban := "NL28INGB4492703411", amount := "" },
    newUserData := emptyNewUserForm, notification := none,
    isSubmitting := false, showAnimation := false }

/-- Bob submitting with a blank iban but a parseable amount. -/
def blankIbanState : AppState :=
  { users := [bobEmployee], currentUser := some bobEmployee,
    currentView := View.transfer, transactions := [],
    transferData := { recipientName := "Ali", iban := "", amount := "30" },
    newUserData := emptyNewUserForm, notification := none,
    isSubmitting := false, showAnimation := false }

/-- Bob submitting a zero amount on an otherwise valid form. -/
def zeroAmountState : AppState :=
  { users := [bobEmployee], currentUser := some bobEmployee,
    currentView := View.transfer, transactions := [],
    transferData := { recipientName := "Ali", iban := "NL28INGB4492703411", amount := "0" },
    newUserData := emptyNewUserForm, notification := none,
    isSubmitting := false, showAnimation := false }

/-- An unlimited manager session submitting the amount string Infinity on
an otherwise valid form. -/
def adminInfinityState : AppState :=
  { users := [{ id := "u_admin", username := "admin", password := some "admin",
                name := "Admin", role := Role.manager, balance := JsNum.inf,
                isUnlimited := true }],
    currentUser := some { id := "u_admin", username := "admin", password := some "admin",
                          name := "Admin", role := Role.manager, balance := JsNum.inf,
                          isUnlimited := true },
    currentView := View.transfer, transactions := [],
    transferData := { recipientName := "Ali", iban := "NL28INGB4492703411",
                      amount := "Infinity" },
    newUserData := emptyNewUserForm, notification := none,
    isSubmitting := false, showAnimation := false }

/-- Constrained creator used by the provisioning claim: an accountant with
balance 100 (neither manager nor unlimited). -/
def carolAccountant : UserAccount :=
  { id := "a1", username := "carol", password := some "pc", name := "Carol",
    role := Role.accountant, balance := JsNum.num 100, isUnlimited := false }

/-- State in which carol provisions a new employee with her entire balance. -/
def carolFullAllocationState : AppState :=
  { users := [carolAccountant], currentUser := some carolAccountant,
    currentView := View.users, transactions := [],
    transferData := { recipientName := "", iban := "", amount := "" },
    newUserData := { name := "New", username := "new1", password := "p",
                     role := Role.employee, balance := "100", isUnlimited := false },
    notification := none, isSubmitting := false, showAnimation := false }

/-! Helper lemmas shared by the claim theorems. -/

lemma transferError_eq_none_iff (now : ℕ) (cu : UserAccount) (td : TransferForm)
    (txs : List Transaction) :
    transferError now cu td txs = none ↔
      fieldsMissing td = false ∧ ibanBad td = false ∧ amountBad td = false ∧
        cooldownHit now cu td txs = false ∧ balanceShort cu td = false := by
  unfold transferError
  cases hf : fieldsMissing td <;> cases hi : ibanBad td <;> cases ha : amountBad td <;>
    cases hc : cooldownHit now cu td txs <;> cases hb : balanceShort cu td <;>
      simp [MSG_FIELDS_REQUIRED, MSG_IBAN_FORMAT, MSG_AMOUNT_INVALID, MSG_COOLDOWN,
        MSG_INSUFFICIENT_BALANCE]

lemma handleTransferSubmit_err (now : ℕ) (s : AppState) (cu : UserAccount) (msg : String)
    (hsub : s.isSubmitting = false) (hcu : s.currentUser = some cu)
    (he : transferError now cu s.transferData s.transactions = some msg) :
    handleTransferSubmit now s = ({ s with notification := some (Notif.error msg) }, []) := by
  simp [handleTransferSubmit, hsub, hcu, he]

lemma handleTransferSubmit_ok (now : ℕ) (s : AppState) (cu : UserAccount)
    (hsub : s.isSubmitting = false) (hcu : s.currentUser = some cu)
    (he : transferError now cu s.transferData s.transactions = none) :
    handleTransferSubmit now s =
      ({ s with notification := none, isSubmitting := true, showAnimation := true }, []) := by
  simp [handleTransferSubmit, hsub, hcu, he]

/-! Claim theorems. -/

lemma shortcut_str_nonempty (val ib : String) (h : IBAN_SHORTCUTS val = JsValue.str ib) :
    ib.isEmpty = false := by
  unfold IBAN_SHORTCUTS at h
  split_ifs at h
  all_goals injection h with h
  all_goals subst h
  all_goals decide

/-- C10 (amended): typing a value into the recipient-name field always
updates the recipient name; a value whose bracket read on IBAN_SHORTCUTS is
an own string entry (exactly the keys 1 through 7, enumerated below)
overwrites the iban field with that hard-coded IBAN; a value naming an
inherited Object.prototype member also overwrites the iban field, with that
truthy non-string value, because the bracket read consults the prototype
chain; only values whose read is undefined leave the iban unchanged. -/
theorem iban_shortcuts_spec (val : String) (td : TransferFormJs) :
    (recipientNameChange val td).recipientName = val ∧
    (∀ ib, IBAN_SHORTCUTS val = JsValue.str ib →
      recipientNameChange val td = { td with recipientName := val, iban := JsValue.str ib }) ∧
    (∀ name, IBAN_SHORTCUTS val = JsValue.protoMember name →
      recipientNameChange val td =
        { td with recipientName := val, iban := JsValue.protoMember name }) ∧
    (IBAN_SHORTCUTS val = JsValue.undefined →
      recipientNameChange val td = { td with recipientName := val }) ∧
    IBAN_SHORTCUTS "1" = JsValue.str "NL28INGB4492703411" ∧
    IBAN_SHORTCUTS "2" = JsValue.str "TG65259839229539759299235173" ∧
    IBAN_SHORTCUTS "3" = JsValue.str "PK66FZYW1614974124948885" ∧
    IBAN_SHORTCUTS "4" = JsValue.str "LB06943151658758328885851489" ∧
    IBAN_SHORTCUTS "5" = JsValue.str "IR0073982001IRKHM19" ∧
    IBAN_SHORTCUTS "6" = JsValue.str "AZ89MUAD91587132136941878378" ∧
    IBAN_SHORTCUTS "7" = JsValue.str "IR293671363912182346221147" ∧
    (objectPrototypeKey val = true → IBAN_SHORTCUTS val = JsValue.protoMember val) ∧
    (val ≠ "1" → val ≠ "2" → val ≠ "3" → val ≠ "4" → val ≠ "5" → val ≠ "6" → val ≠ "7" →
      objectPrototypeKey val = false → IBAN_SHORTCUTS val = JsValue.undefined) := by
  refine ⟨?_, ?_, ?_, ?_, by decide, by decide, by decide, by decide, by decide, by decide,
    by decide, ?_, ?_⟩
  · unfold recipientNameChange
    split <;> rfl
  · intro ib h
    have hne := shortcut_str_nonempty val ib h
    simp [recipientNameChange, h, jsTruthy, hne]
  · intro name h
    simp [recipientNameChange, h, jsTruthy]
  · intro h
    simp [recipientNameChange, h, jsTruthy]
  · intro h
    have h1 : val ≠ "1" := fun hv => by subst hv; exact absurd h (by decide)
    have h2 : val ≠ "2" := fun hv => by subst hv; exact absurd h (by decide)
    have h3 : val ≠ "3" := fun hv => by subst hv; exact absurd h (by decide)
    have h4 : val ≠ "4" := fun hv => by subst hv; exact absurd h (by decide)
    have h5 : val ≠ "5" := fun hv => by subst hv; exact absurd h (by decide)
    have h6 : val ≠ "6" := fun hv => by subst hv; exact absurd h (by decide)
    have h7 : val ≠ "7" := fun hv => by subst hv; exact absurd h (by decide)
    simp [IBAN_SHORTCUTS, h1, h2, h3, h4, h5, h6, h7, h]
  · intro h1 h2 h3 h4 h5 h6 h7 hp
    simp [IBAN_SHORTCUTS, h1, h2, h3, h4, h5, h6, h7, hp]

/-- Witness for iban_shortcuts_spec: the key 3 rewrites the iban field of a
blank form to the hard-coded Pakistani IBAN. -/
theorem iban_shortcuts_witness :
    recipientNameChange "3" { recipientName := "", iban := JsValue.str "", amount := "" } =
      { recipientName := "3", iban := JsValue.str "PK66FZYW1614974124948885", amount := "" } :=
  (iban_shortcuts_spec "3" { recipientName := "", iban := JsValue.str "", amount := "" }).2.1
    "PK66FZYW1614974124948885" (by decide)

/-- Counterexample to C10 as stated: the value toString is not one of the
keys 1 through 7, yet the bracket read finds the inherited Object.prototype
member, which is truthy, so the handler overwrites the iban field instead
of leaving it unchanged. -/
theorem iban_shortcuts_cex :
    ("toString" ≠ "1" ∧ "toString" ≠ "2" ∧ "toString" ≠ "3" ∧ "toString" ≠ "4" ∧
      "toString" ≠ "5" ∧ "toString" ≠ "6" ∧ "toString" ≠ "7") ∧
    IBAN_SHORTCUTS "toString" = JsValue.protoMember "toString" ∧
    recipientNameChange "toString"
        { recipientName := "", iban := JsValue.str "NL28INGB4492703411", amount := "" } =
      { recipientName := "toString", iban := JsValue.protoMember "toString", amount := "" } ∧
    (recipientNameChange "toString"
        { recipientName := "", iban := JsValue.str "NL28INGB4492703411", amount := "" }).iban ≠
      JsValue.str "NL28INGB4492703411" := by
  decide

/-- C9: deleting the acting session's own id is rejected with an error
notification, no store delete and no user-list change; any other id is
deleted only with interactive confirmation, which issues the store delete
and filters the local list. -/
theorem delete_user_spec (confirmOk : Bool) (userId : String) (s : AppState)
    (cu : UserAccount) (hcu : s.currentUser = some cu) :
    (userId = cu.id →
      handleDeleteUser confirmOk userId s =
        ({ s with notification := some (Notif.error MSG_SELF_DELETE) }, [])) ∧
    (userId ≠ cu.id → confirmOk = false →
      handleDeleteUser confirmOk userId s = (s, [])) ∧
    (userId ≠ cu.id → confirmOk = true →
      handleDeleteUser confirmOk userId s =
        ({ s with
            users := s.users.filter fun u => u.id != userId
            notification := some (Notif.success MSG_USER_DELETED) },
          [StoreOp.deleteUser userId])) := by
  refine ⟨?_, ?_, ?_⟩
  · intro h
    simp [handleDeleteUser, hcu, h]
  · intro h hconf
    simp [handleDeleteUser, hcu, Ne.symm h, hconf]
  · intro h hconf
    simp [handleDeleteUser, hcu, Ne.symm h, hconf]

/-- Witness for delete_user_spec: with a confirmed dialog, deleting another
user's id removes that row locally and issues exactly one store delete. -/
theorem delete_user_witness :
    handleDeleteUser true "u2"
      { users := [{ id := "u1", username := "alice", password := some "pw", name := "Alice",
                    role := Role.manager, balance := JsNum.inf, isUnlimited := true },
                  { id := "u2", username := "bob", password := some "pw2", name := "Bob",
                    role := Role.employee, balance := JsNum.num 100, isUnlimited := false }]
        currentUser := some { id := "u1", username := "alice", password := some "pw",
                              name := "Alice", role := Role.manager, balance := JsNum.inf,
                              isUnlimited := true }
        currentView := View.users
        transactions := []
        transferData := { recipientName := "", iban := "", amount := "" }
        newUserData := emptyNewUserForm
        notification := none
        isSubmitting := false
        showAnimation := false } =
      ({ users := [{ id := "u1", username := "alice", password := some "pw", name := "Alice",
                     role := Role.manager, balance := JsNum.inf, isUnlimited := true }]
         currentUser := some { id := "u1", username := "alice", password := some "pw",
                               name := "Alice", role := Role.manager, balance := JsNum.inf,
                               isUnlimited := true }
         currentView := View.users
         transactions := []
         transferData := { recipientName := "", iban := "", amount := "" }
         newUserData := emptyNewUserForm
         notification := some (Notif.success MSG_USER_DELETED)
         isSubmitting := false
         showAnimation := false }, [StoreOp.deleteUser "u2"]) := by
  have h := (delete_user_spec true "u2"
    { users := [{ id := "u1", username := "alice", password := some "pw", name := "Alice",
                  role := Role.manager, balance := JsNum.inf, isUnlimited := true },
                { id := "u2", username := "bob", password := some "pw2", name := "Bob",
                  role := Role.employee, balance := JsNum.num 100, isUnlimited := false }]
      currentUser := some { id := "u1", username := "alice", password := some "pw",
                            name := "Alice", role := Role.manager, balance := JsNum.inf,
                            isUnlimited := true }
      currentView := View.users
      transactions := []
      transferData := { recipientName := "", iban := "", amount := "" }
      newUserData := emptyNewUserForm
      notification := none
      isSubmitting := false
      showAnimation := false }
    { id := "u1", username := "alice", password := some "pw", name := "Alice",
      role := Role.manager, balance := JsNum.inf, isUnlimited := true } rfl).2.2
    (by decide) rfl
  exact h.trans (by decide)

/-- C7: login succeeds exactly when some loaded user carries the submitted
username and password verbatim; on success that account becomes the current
user and the initial view is transfer for employees and overview otherwise;
every failure returns the one generic invalid-credentials message and
leaves the state unchanged. -/
theorem login_spec (u p : String) (s : AppState) :
    ((∃ acc ∈ s.users, acc.username = u ∧ acc.password = some p) →
      (handleLoginAttempt u p s).2 = none ∧
      ∃ acc, (handleLoginAttempt u p s).1.currentUser = some acc ∧
        acc ∈ s.users ∧ acc.username = u ∧ acc.password = some p ∧
        (handleLoginAttempt u p s).1.currentView =
          (if acc.role = Role.employee then View.transfer else View.overview)) ∧
    ((¬ ∃ acc ∈ s.users, acc.username = u ∧ acc.password = some p) →
      (handleLoginAttempt u p s).2 = some MSG_LOGIN_INVALID ∧
      (handleLoginAttempt u p s).1 = s) := by
  cases hfind : s.users.find? (loginMatch u p) with
  | none =>
    constructor
    · rintro ⟨acc, hmem, hu, hp⟩
      have := List.find?_eq_none.mp hfind acc hmem
      simp [loginMatch, hu, hp] at this
    · intro _
      simp [handleLoginAttempt, hfind]
  | some acc =>
    have hmem : acc ∈ s.users := List.mem_of_find?_eq_some hfind
    have hmatch : loginMatch u p acc = true := List.find?_some hfind
    rw [loginMatch, Bool.and_eq_true, beq_iff_eq, beq_iff_eq] at hmatch
    constructor
    · intro _
      refine ⟨by simp [handleLoginAttempt, hfind], acc, ?_, hmem, hmatch.1, hmatch.2, ?_⟩
      · simp [handleLoginAttempt, hfind]
      · simp [handleLoginAttempt, hfind, beq_iff_eq]
    · intro hno
      exact absurd ⟨acc, hmem, hmatch.1, hmatch.2⟩ hno

/-- Witness for login_spec: alice's exact credentials log her in and, as a
non-employee, land on the overview view. -/
theorem login_witness :
    (handleLoginAttempt "alice" "pw" aliceStateWithBobTx).2 = none ∧
    ∃ acc, (handleLoginAttempt "alice" "pw" aliceStateWithBobTx).1.currentUser = some acc ∧
      acc ∈ aliceStateWithBobTx.users ∧ acc.username = "alice" ∧ acc.password = some "pw" ∧
      (handleLoginAttempt "alice" "pw" aliceStateWithBobTx).1.currentView =
        (if acc.role = Role.employee then View.transfer else View.overview) :=
  (login_spec "alice" "pw" aliceStateWithBobTx).1
    ⟨aliceAccountant, by decide, by decide, by decide⟩

/-- C8 (amended): the overview's total-transferred sum and transaction
count range over only the session's own transactions, so a foreign
transaction leaves them unchanged; the most-recent-5 list, however, is the
plain first five entries of the full in-memory list, not filtered by
creator. -/
theorem overview_aggregates_spec (s : AppState) (cu : UserAccount) (t : Transaction)
    (hcu : s.currentUser = some cu) (hforeign : t.createdBy ≠ cu.username) :
    totalTransferred { s with transactions := t :: s.transactions } = totalTransferred s ∧
    totalTransactions { s with transactions := t :: s.transactions } = totalTransactions s ∧
    recentTransactions s = s.transactions.take 5 := by
  have hown : ownTx s.currentUser t = false := by
    simp [ownTx, hcu, hforeign]
  refine ⟨?_, ?_, rfl⟩
  · simp [totalTransferred, List.filter_cons, hown]
  · simp [totalTransactions, List.filter_cons, hown]

/-- Witness for overview_aggregates_spec: prepending bob's transaction to
alice's session state changes neither her total nor her count. -/
theorem overview_aggregates_witness :
    totalTransferred { aliceStateWithBobTx with
        transactions := bobTransaction :: aliceStateWithBobTx.transactions } =
      totalTransferred aliceStateWithBobTx ∧
    totalTransactions { aliceStateWithBobTx with
        transactions := bobTransaction :: aliceStateWithBobTx.transactions } =
      totalTransactions aliceStateWithBobTx ∧
    recentTransactions aliceStateWithBobTx = aliceStateWithBobTx.transactions.take 5 :=
  overview_aggregates_spec aliceStateWithBobTx aliceAccountant bobTransaction rfl (by decide)

/-- Counterexample to C8 as stated: with alice logged in, the most-recent-5
list contains bob's transaction, so it is not computed over only the
current session's own transactions. -/
theorem overview_recent_cex :
    aliceStateWithBobTx.currentUser = some aliceAccountant ∧
    recentTransactions aliceStateWithBobTx = [bobTransaction] ∧
    bobTransaction.createdBy ≠ aliceAccountant.username := by
  exact ⟨rfl, rfl, by decide⟩

/-- C1: a transfer submission that passes validation, by a non-manager,
non-unlimited session with balance B and parsed amount A, commits balance
B minus A (written to the store keyed by the user id and mirrored into the
users list and currentUser) and prepends exactly one completed transaction
of amount A to the in-memory history. -/
theorem transfer_commit_spec (now later : ℕ) (rid : String) (s : AppState)
    (cu : UserAccount) (B A : ℚ)
    (hcu : s.currentUser = some cu) (hsub : s.isSubmitting = false)
    (hrole : cu.role ≠ Role.manager) (hunl : cu.isUnlimited = false)
    (hB : cu.balance = JsNum.num B)
    (hA : parseFloat s.transferData.amount = JsNum.num A)
    (hpass : transferError now cu s.transferData s.transactions = none) :
    ∃ tx,
      (handleAnimationComplete later rid (handleTransferSubmit now s).1).1.transactions =
        tx :: s.transactions ∧
      tx.amount = JsNum.num A ∧
      tx.status = TxStatus.completed ∧
      (handleAnimationComplete later rid (handleTransferSubmit now s).1).1.currentUser =
        some { cu with balance := JsNum.num (B - A) } ∧
      (handleAnimationComplete later rid (handleTransferSubmit now s).1).1.users =
        s.users.map (fun u =>
          if u.id == cu.id then { u with balance := JsNum.num (B - A) } else u) ∧
      (handleAnimationComplete later rid (handleTransferSubmit now s).1).2 =
        [StoreOp.insertTransaction tx,
         StoreOp.updateUserBalance cu.id (JsNum.num (B - A))] := by
  have hcond : (cu.role != Role.manager && !cu.isUnlimited) = true := by
    simp [bne_iff_ne, hrole, hunl]
  rw [handleTransferSubmit_ok now s cu hsub hcu hpass]
  refine ⟨{ id := "TX-" ++ rid, date := later,
            recipientName := s.transferData.recipientName,
            iban := s.transferData.iban, amount := JsNum.num A,
            status := TxStatus.completed, createdBy := cu.username }, ?_, rfl, rfl, ?_, ?_, ?_⟩ <;>
    simp [handleAnimationComplete, hcu, hcond, hA, hB, JsNum.sub]

/-- Witness for transfer_commit_spec: bob's 30 USD transfer from balance 100
ends at balance 70 with one completed transaction of 30 first in history. -/
theorem transfer_commit_witness :
    ∃ tx,
      (handleAnimationComplete 1700000100000 "w1"
          (handleTransferSubmit 1700000000000 bobTransferState).1).1.transactions = [tx] ∧
      tx.amount = JsNum.num 30 ∧
      tx.status = TxStatus.completed ∧
      (handleAnimationComplete 1700000100000 "w1"
          (handleTransferSubmit 1700000000000 bobTransferState).1).1.currentUser =
        some { bobEmployee with balance := JsNum.num 70 } ∧
      (handleAnimationComplete 1700000100000 "w1"
          (handleTransferSubmit 1700000000000 bobTransferState).1).2 =
        [StoreOp.insertTransaction tx,
         StoreOp.updateUserBalance bobEmployee.id (JsNum.num 70)] := by
  obtain ⟨tx, h1, h2, h3, h4, h5, h6⟩ :=
    transfer_commit_spec 1700000000000 1700000100000 "w1" bobTransferState bobEmployee
      100 30 rfl rfl (by decide) rfl rfl (by decide) (by decide)
  have hval : (100 : ℚ) - 30 = 70 := by norm_num
  rw [hval] at h4 h6
  exact ⟨tx, h1, h2, h3, h4, h6⟩

/-- C2 (amended): a submission by a non-manager, non-unlimited session whose
parsed amount strictly exceeds the balance is always rejected before any
store write: the flow never enters the submitting phase, no store call is
issued, and users, transactions and currentUser stay untouched; the
rejection carries the insufficient-balance message exactly in the case
where the field, iban, amount and cooldown checks all pass. -/
theorem insufficient_balance_spec (now : ℕ) (s : AppState) (cu : UserAccount)
    (hcu : s.currentUser = some cu) (hsub : s.isSubmitting = false)
    (hrole : cu.role ≠ Role.manager) (hunl : cu.isUnlimited = false)
    (hover : (parseFloat s.transferData.amount).jgt cu.balance = true) :
    ((handleTransferSubmit now s).1.isSubmitting = false ∧
     (handleTransferSubmit now s).1.users = s.users ∧
     (handleTransferSubmit now s).1.transactions = s.transactions ∧
     (handleTransferSubmit now s).1.currentUser = s.currentUser ∧
     (handleTransferSubmit now s).2 = []) ∧
    (fieldsMissing s.transferData = false → ibanBad s.transferData = false →
     amountBad s.transferData = false →
     cooldownHit now cu s.transferData s.transactions = false →
     (handleTransferSubmit now s).1.notification =
       some (Notif.error MSG_INSUFFICIENT_BALANCE)) := by
  have hbs : balanceShort cu s.transferData = true := by
    simp [balanceShort, bne_iff_ne, hrole, hunl, hover]
  constructor
  · rcases he : transferError now cu s.transferData s.transactions with _ | msg
    · exfalso
      rw [transferError_eq_none_iff] at he
      rw [he.2.2.2.2] at hbs
      exact absurd hbs (by simp)
    · rw [handleTransferSubmit_err now s cu msg hsub hcu he]
      exact ⟨hsub, rfl, rfl, rfl, rfl⟩
  · intro hf hi ha hc
    have he : transferError now cu s.transferData s.transactions =
        some MSG_INSUFFICIENT_BALANCE := by
      simp [transferError, hf, hi, ha, hc, hbs]
    rw [handleTransferSubmit_err now s cu _ hsub hcu he]

/-- Witness for insufficient_balance_spec: bob's 100 USD request against a
50 USD balance is rejected with the insufficient-balance message and no
store write. -/
theorem insufficient_balance_witness :
    ((handleTransferSubmit 1700000000000 overdraftState).1.isSubmitting = false ∧
     (handleTransferSubmit 1700000000000 overdraftState).1.users = overdraftState.users ∧
     (handleTransferSubmit 1700000000000 overdraftState).1.transactions =
       overdraftState.transactions ∧
     (handleTransferSubmit 1700000000000 overdraftState).1.currentUser =
       overdraftState.currentUser ∧
     (handleTransferSubmit 1700000000000 overdraftState).2 = []) ∧
    (handleTransferSubmit 1700000000000 overdraftState).1.notification =
      some (Notif.error MSG_INSUFFICIENT_BALANCE) := by
  obtain ⟨hstate, hmsg⟩ :=
    insufficient_balance_spec 1700000000000 overdraftState bobFifty rfl rfl
      (by decide) rfl (by decide)
  exact ⟨hstate, hmsg (by decide) (by decide) (by decide) (by decide)⟩

/-- Counterexample to C2 as stated: the parsed amount 100 exceeds bob's
balance 50, yet the rejection carries the iban-format message, not the
insufficient-balance one, because the iban check runs first. -/
theorem insufficient_balance_cex :
    overdraftBadIbanState.currentUser = some bobFifty ∧
    bobFifty.role ≠ Role.manager ∧ bobFifty.isUnlimited = false ∧
    (parseFloat overdraftBadIbanState.transferData.amount).jgt bobFifty.balance = true ∧
    (handleTransferSubmit 1700000000000 overdraftBadIbanState).1.notification =
      some (Notif.error MSG_IBAN_FORMAT) ∧
    MSG_IBAN_FORMAT ≠ MSG_INSUFFICIENT_BALANCE := by
  decide

lemma transferError_ne_cooldown (now : ℕ) (cu : UserAccount) (td : TransferForm)
    (txs : List Transaction) (hcd : cooldownHit now cu td txs = false) :
    transferError now cu td txs ≠ some MSG_COOLDOWN := by
  unfold transferError
  split_ifs <;> simp_all <;> decide

/-- C3 (amended): for a submission that passes the field, iban and amount
checks, an employee with a same-iban, same-creator transaction newer than
now minus four hours is rejected with the cooldown message (in particular
for a completed one); when every such transaction is at least four hours
and one second old the cooldown passes and the submission is accepted
(balance permitting); manager and accountant sessions never receive the
cooldown rejection. -/
theorem employee_cooldown_spec (now : ℕ) (s : AppState) (cu : UserAccount)
    (hcu : s.currentUser = some cu) (hsub : s.isSubmitting = false)
    (hf : fieldsMissing s.transferData = false)
    (hi : ibanBad s.transferData = false)
    (ha : amountBad s.transferData = false) :
    (cu.role = Role.employee →
      (∃ tx ∈ s.transactions, tx.iban = s.transferData.iban ∧
        tx.createdBy = cu.username ∧ tx.status = TxStatus.completed ∧
        now - 4 * 60 * 60 * 1000 < tx.date) →
      (handleTransferSubmit now s).1.notification = some (Notif.error MSG_COOLDOWN) ∧
      (handleTransferSubmit now s).1.isSubmitting = false) ∧
    ((∀ tx ∈ s.transactions, tx.iban = s.transferData.iban →
        tx.createdBy = cu.username →
        tx.date ≤ now - (4 * 60 * 60 * 1000 + 1000)) →
      balanceShort cu s.transferData = false →
      (handleTransferSubmit now s).1.isSubmitting = true ∧
      (handleTransferSubmit now s).1.showAnimation = true) ∧
    (cu.role ≠ Role.employee →
      (handleTransferSubmit now s).1.notification ≠ some (Notif.error MSG_COOLDOWN)) := by
  refine ⟨?_, ?_, ?_⟩
  · rintro hrole ⟨tx, hmem, hib, hcr, _, hdate⟩
    have hcd : cooldownHit now cu s.transferData s.transactions = true := by
      unfold cooldownHit
      rw [Bool.and_eq_true]
      refine ⟨by simp [hrole], ?_⟩
      rw [List.any_eq_true]
      exact ⟨tx, hmem, by simp [hib, hcr, hdate]⟩
    have he : transferError now cu s.transferData s.transactions = some MSG_COOLDOWN := by
      simp [transferError, hf, hi, ha, hcd]
    rw [handleTransferSubmit_err now s cu _ hsub hcu he]
    exact ⟨rfl, hsub⟩
  · intro hall hbs
    have hcd : cooldownHit now cu s.transferData s.transactions = false := by
      unfold cooldownHit
      cases hrole : (cu.role == Role.employee)
      · simp
      · rw [Bool.true_and, List.any_eq_false]
        intro tx hmem
        simp only [Bool.and_eq_true, beq_iff_eq, decide_eq_true_eq, not_and]
        intro hpair hdate
        have := hall tx hmem hpair.1 hpair.2
        omega
    have he : transferError now cu s.transferData s.transactions = none := by
      simp [transferError, hf, hi, ha, hcd, hbs]
    rw [handleTransferSubmit_ok now s cu hsub hcu he]
    exact ⟨rfl, rfl⟩
  · intro hrole
    have hcd : cooldownHit now cu s.transferData s.transactions = false := by
      simp [cooldownHit, hrole]
    rcases he : transferError now cu s.transferData s.transactions with _ | msg
    · rw [handleTransferSubmit_ok now s cu hsub hcu he]
      simp
    · rw [handleTransferSubmit_err now s cu msg hsub hcu he]
      have hne := transferError_ne_cooldown now cu s.transferData s.transactions hcd
      rw [he] at hne
      simp only [ne_eq, Option.some.injEq] at hne ⊢
      intro hx
      exact hne (by rw [(Notif.error.injEq _ _).mp hx])

/-- Witness for employee_cooldown_spec: a one-second-old completed transfer
to the same iban makes bob's resubmission fail with the cooldown message,
while the same submission against a four-hours-one-second-old transaction
enters the submitting phase. -/
theorem employee_cooldown_witness :
    ((handleTransferSubmit 1700000000000 cooldownRecentState).1.notification =
        some (Notif.error MSG_COOLDOWN) ∧
      (handleTransferSubmit 1700000000000 cooldownRecentState).1.isSubmitting = false) ∧
    ((handleTransferSubmit 1700000000000 cooldownOldState).1.isSubmitting = true ∧
      (handleTransferSubmit 1700000000000 cooldownOldState).1.showAnimation = true) := by
  constructor
  · exact (employee_cooldown_spec 1700000000000 cooldownRecentState bobEmployee rfl rfl
      (by decide) (by decide) (by decide)).1 rfl
      ⟨recentBobTx, by decide, by decide, by decide, by decide, by decide⟩
  · exact (employee_cooldown_spec 1700000000000 cooldownOldState bobEmployee rfl rfl
      (by decide) (by decide) (by decide)).2.1
      (by decide) (by decide)

/-- Counterexample to C3 as stated: bob is an employee with a completed
same-iban transaction one second old, yet the submission is rejected with
the required-fields message instead of the cooldown message because the
amount field is blank and that check runs first. -/
theorem employee_cooldown_cex :
    cooldownBlankAmountState.currentUser = some bobEmployee ∧
    bobEmployee.role = Role.employee ∧
    (∃ tx ∈ cooldownBlankAmountState.transactions,
      tx.iban = cooldownBlankAmountState.transferData.iban ∧
      tx.createdBy = bobEmployee.username ∧ tx.status = TxStatus.completed ∧
      1700000000000 - 4 * 60 * 60 * 1000 < tx.date) ∧
    (handleTransferSubmit 1700000000000 cooldownBlankAmountState).1.notification =
      some (Notif.error MSG_FIELDS_REQUIRED) ∧
    MSG_FIELDS_REQUIRED ≠ MSG_COOLDOWN := by
  exact ⟨rfl, rfl,
    ⟨recentBobTx, by decide, by decide, by decide, by decide, by decide⟩,
    by decide, by decide⟩

lemma transferError_ne_iban (now : ℕ) (cu : UserAccount) (td : TransferForm)
    (txs : List Transaction) (hib : ibanBad td = false) :
    transferError now cu td txs ≠ some MSG_IBAN_FORMAT := by
  unfold transferError
  split_ifs <;> simp_all <;> decide

lemma transferError_ne_amount (now : ℕ) (cu : UserAccount) (td : TransferForm)
    (txs : List Transaction) (ha : amountBad td = false) :
    transferError now cu td txs ≠ some MSG_AMOUNT_INVALID := by
  unfold transferError
  split_ifs <;> simp_all <;> decide

/-- C4 (amended): an iban matching the anchored pattern of two uppercase
letters then alphanumeric uppercase characters, with length at least 15, is
never rejected by the iban-format check; once the required-fields check has
passed, an iban failing the pattern or shorter than 15 is rejected with the
iban-format message, before the submitting phase and with no store write;
a blank iban is instead caught earlier by the required-fields check. -/
theorem iban_format_spec (now : ℕ) (s : AppState) (cu : UserAccount)
    (hcu : s.currentUser = some cu) (hsub : s.isSubmitting = false) :
    ((ibanPatternTest s.transferData.iban = true ∧ 15 ≤ s.transferData.iban.length) →
      (handleTransferSubmit now s).1.notification ≠ some (Notif.error MSG_IBAN_FORMAT)) ∧
    (fieldsMissing s.transferData = false →
      (ibanPatternTest s.transferData.iban = false ∨ s.transferData.iban.length < 15) →
      (handleTransferSubmit now s).1.notification = some (Notif.error MSG_IBAN_FORMAT) ∧
      (handleTransferSubmit now s).1.isSubmitting = false ∧
      (handleTransferSubmit now s).2 = []) := by
  constructor
  · intro h
    have hib : ibanBad s.transferData = false := by
      simp only [ibanBad, h.1, Bool.not_true, Bool.false_or]
      simpa using Nat.not_lt.mpr h.2
    rcases he : transferError now cu s.transferData s.transactions with _ | msg
    · rw [handleTransferSubmit_ok now s cu hsub hcu he]
      simp
    · rw [handleTransferSubmit_err now s cu msg hsub hcu he]
      have hne := transferError_ne_iban now cu s.transferData s.transactions hib
      rw [he] at hne
      simp only [ne_eq, Option.some.injEq] at hne ⊢
      intro hx
      exact hne (by rw [(Notif.error.injEq _ _).mp hx])
  · intro hf h
    have hib : ibanBad s.transferData = true := by
      rcases h with h | h
      · simp [ibanBad, h]
      · simp [ibanBad, h]
    have he : transferError now cu s.transferData s.transactions = some MSG_IBAN_FORMAT := by
      simp [transferError, hf, hib]
    rw [handleTransferSubmit_err now s cu _ hsub hcu he]
    exact ⟨rfl, hsub, rfl⟩

/-- Witness for iban_format_spec: bob's malformed three-character iban is
rejected with the iban-format message, and his valid 18-character iban is
never rejected with it. -/
theorem iban_format_witness :
    ((handleTransferSubmit 1700000000000 overdraftBadIbanState).1.notification =
        some (Notif.error MSG_IBAN_FORMAT) ∧
      (handleTransferSubmit 1700000000000 overdraftBadIbanState).1.isSubmitting = false ∧
      (handleTransferSubmit 1700000000000 overdraftBadIbanState).2 = []) ∧
    (handleTransferSubmit 1700000000000 bobTransferState).1.notification ≠
      some (Notif.error MSG_IBAN_FORMAT) := by
  constructor
  · exact (iban_format_spec 1700000000000 overdraftBadIbanState bobFifty rfl rfl).2
      (by decide) (Or.inr (by decide))
  · exact (iban_format_spec 1700000000000 bobTransferState bobEmployee rfl rfl).1
      ⟨by decide, by decide⟩

/-- Counterexample to C4 as stated: the empty iban fails the pattern, yet
validation rejects it with the required-fields message rather than the
iban-format error. -/
theorem iban_format_cex :
    ibanPatternTest blankIbanState.transferData.iban = false ∧
    blankIbanState.transferData.iban.length < 15 ∧
    (handleTransferSubmit 1700000000000 blankIbanState).1.notification =
      some (Notif.error MSG_FIELDS_REQUIRED) ∧
    MSG_FIELDS_REQUIRED ≠ MSG_IBAN_FORMAT := by
  decide

/-- C5 (amended): the amount check rejects, with the invalid-amount
message, exactly the amounts parsing to NaN or to a non-positive value
(once the field and iban checks pass); an amount parsing to a value that is
neither NaN nor at most zero always passes the amount check, and the
non-finite string Infinity parses to positive infinity, which passes. -/
theorem amount_validation_spec (now : ℕ) (s : AppState) (cu : UserAccount)
    (hcu : s.currentUser = some cu) (hsub : s.isSubmitting = false)
    (hf : fieldsMissing s.transferData = false)
    (hi : ibanBad s.transferData = false) :
    (((parseFloat s.transferData.amount).isNaN = true ∨
        (parseFloat s.transferData.amount).jle (JsNum.num 0) = true) →
      (handleTransferSubmit now s).1.notification = some (Notif.error MSG_AMOUNT_INVALID) ∧
      (handleTransferSubmit now s).1.isSubmitting = false ∧
      (handleTransferSubmit now s).2 = []) ∧
    ((parseFloat s.transferData.amount).isNaN = false →
      (parseFloat s.transferData.amount).jle (JsNum.num 0) = false →
      (handleTransferSubmit now s).1.notification ≠ some (Notif.error MSG_AMOUNT_INVALID)) ∧
    parseFloat "Infinity" = JsNum.inf ∧
    JsNum.inf.isNaN = false ∧
    JsNum.inf.jle (JsNum.num 0) = false := by
  refine ⟨?_, ?_, by decide, by decide, by decide⟩
  · intro h
    have ha : amountBad s.transferData = true := by
      rcases h with h | h
      · simp [amountBad, h]
      · simp [amountBad, h]
    have he : transferError now cu s.transferData s.transactions =
        some MSG_AMOUNT_INVALID := by
      simp [transferError, hf, hi, ha]
    rw [handleTransferSubmit_err now s cu _ hsub hcu he]
    exact ⟨rfl, hsub, rfl⟩
  · intro h1 h2
    have ha : amountBad s.transferData = false := by
      simp [amountBad, h1, h2]
    rcases he : transferError now cu s.transferData s.transactions with _ | msg
    · rw [handleTransferSubmit_ok now s cu hsub hcu he]
      simp
    · rw [handleTransferSubmit_err now s cu msg hsub hcu he]
      have hne := transferError_ne_amount now cu s.transferData s.transactions ha
      rw [he] at hne
      simp only [ne_eq, Option.some.injEq] at hne ⊢
      intro hx
      exact hne (by rw [(Notif.error.injEq _ _).mp hx])

/-- Witness for amount_validation_spec: the zero amount is rejected with
the invalid-amount message and no store write. -/
theorem amount_validation_witness :
    (handleTransferSubmit 1700000000000 zeroAmountState).1.notification =
      some (Notif.error MSG_AMOUNT_INVALID) ∧
    (handleTransferSubmit 1700000000000 zeroAmountState).1.isSubmitting = false ∧
    (handleTransferSubmit 1700000000000 zeroAmountState).2 = [] :=
  (amount_validation_spec 1700000000000 zeroAmountState bobEmployee rfl rfl
    (by decide) (by decide)).1 (Or.inr (by decide))

/-- Counterexample to C5 as stated: the amount string Infinity parses to a
non-finite value, yet the submission is accepted into the settling phase
instead of being rejected with the invalid-amount message. -/
theorem amount_validation_cex :
    parseFloat adminInfinityState.transferData.amount = JsNum.inf ∧
    (handleTransferSubmit 1700000000000 adminInfinityState).1.isSubmitting = true ∧
    (handleTransferSubmit 1700000000000 adminInfinityState).1.notification ≠
      some (Notif.error MSG_AMOUNT_INVALID) := by
  decide

/-- C6: every provisioning submission failing a validation check (a missing
required field, the balance being required unless the unlimited flag is
set; a taken username; a NaN or negative allocation; or a balance-
constrained creator allocating strictly above its own balance) is rejected
with an error notification, no store write and no change to users,
currentUser or transactions; otherwise the new row is inserted and a
balance-constrained creator is additionally debited by the allocation, so
that allocating the creator's entire balance B succeeds and leaves it at
exactly 0, while an allocation of B plus 1 is rejected with no state
change. -/
theorem add_user_spec (rid : String) (s : AppState) (cu : UserAccount) (B : ℚ)
    (hcu : s.currentUser = some cu) :
    ((addFieldsMissing s.newUserData = true ∨ usernameTaken s.users s.newUserData = true ∨
      allocationInvalid s.newUserData = true ∨ allocationExceeds cu s.newUserData = true) →
      (handleAddUser rid s).2 = [] ∧
      (handleAddUser rid s).1.users = s.users ∧
      (handleAddUser rid s).1.currentUser = s.currentUser ∧
      (handleAddUser rid s).1.transactions = s.transactions ∧
      ∃ m, (handleAddUser rid s).1.notification = some (Notif.error m)) ∧
    (addFieldsMissing s.newUserData = false → usernameTaken s.users s.newUserData = false →
     allocationInvalid s.newUserData = false → allocationExceeds cu s.newUserData = false →
      ∃ row, row.username = s.newUserData.username ∧ row.name = s.newUserData.name ∧
        row.role = s.newUserData.role ∧ row.balance = allocatedBalance s.newUserData ∧
        ((cu.role != Role.manager && !cu.isUnlimited) = true →
          (handleAddUser rid s).2 =
            [StoreOp.insertUser row,
             StoreOp.updateUserBalance cu.id
               (cu.balance.sub (allocatedBalance s.newUserData))] ∧
          (handleAddUser rid s).1.currentUser =
            some { cu with balance := cu.balance.sub (allocatedBalance s.newUserData) }) ∧
        ((cu.role != Role.manager && !cu.isUnlimited) = false →
          (handleAddUser rid s).2 = [StoreOp.insertUser row] ∧
          (handleAddUser rid s).1.currentUser = s.currentUser)) ∧
    (cu.role ≠ Role.manager → cu.isUnlimited = false → cu.balance = JsNum.num B →
     s.newUserData.isUnlimited = false →
     parseFloat s.newUserData.balance = JsNum.num B → 0 ≤ B →
     addFieldsMissing s.newUserData = false → usernameTaken s.users s.newUserData = false →
      (handleAddUser rid s).1.currentUser = some { cu with balance := JsNum.num 0 } ∧
      (handleAddUser rid s).2 =
        [StoreOp.insertUser
          { id := "U-" ++ rid, username := s.newUserData.username,
            password := some s.newUserData.password, name := s.newUserData.name,
            role := s.newUserData.role, balance := JsNum.num B, isUnlimited := false },
         StoreOp.updateUserBalance cu.id (JsNum.num 0)]) ∧
    (cu.role ≠ Role.manager → cu.isUnlimited = false → cu.balance = JsNum.num B →
     s.newUserData.isUnlimited = false →
     parseFloat s.newUserData.balance = JsNum.num (B + 1) →
      (handleAddUser rid s).2 = [] ∧
      (handleAddUser rid s).1.users = s.users ∧
      (handleAddUser rid s).1.currentUser = s.currentUser) := by
  have hrej : (addFieldsMissing s.newUserData = true ∨
      usernameTaken s.users s.newUserData = true ∨
      allocationInvalid s.newUserData = true ∨ allocationExceeds cu s.newUserData = true) →
      (handleAddUser rid s).2 = [] ∧
      (handleAddUser rid s).1.users = s.users ∧
      (handleAddUser rid s).1.currentUser = s.currentUser ∧
      (handleAddUser rid s).1.transactions = s.transactions ∧
      ∃ m, (handleAddUser rid s).1.notification = some (Notif.error m) := by
    intro hr
    have hex : ∃ m, handleAddUser rid s =
        ({ s with notification := some (Notif.error m) }, []) := by
      cases h1 : addFieldsMissing s.newUserData
      · cases h2 : usernameTaken s.users s.newUserData
        · cases h3 : allocationInvalid s.newUserData
          · cases h4 : allocationExceeds cu s.newUserData
            · simp [h1, h2, h3, h4] at hr
            · exact ⟨MSG_ALLOCATION_INSUFFICIENT, by simp [handleAddUser, hcu, h1, h2, h3, h4]⟩
          · exact ⟨MSG_BALANCE_INVALID, by simp [handleAddUser, hcu, h1, h2, h3]⟩
        · exact ⟨MSG_USERNAME_TAKEN, by simp [handleAddUser, hcu, h1, h2]⟩
      · exact ⟨MSG_ADD_FIELDS, by simp [handleAddUser, hcu, h1]⟩
    obtain ⟨m, hm⟩ := hex
    rw [hm]
    exact ⟨rfl, rfl, rfl, rfl, m, rfl⟩
  refine ⟨hrej, ?_, ?_, ?_⟩
  · intro h1 h2 h3 h4
    refine ⟨{ id := "U-" ++ rid, username := s.newUserData.username,
              password := some s.newUserData.password, name := s.newUserData.name,
              role := s.newUserData.role, balance := allocatedBalance s.newUserData,
              isUnlimited := s.newUserData.isUnlimited },
            rfl, rfl, rfl, rfl, ?_, ?_⟩ <;>
      intro hcond <;>
      constructor <;>
      simp [handleAddUser, hcu, h1, h2, h3, h4, hcond]
  · intro hrole hunl hBal hfunl hpar hB0 h1 h2
    have hallB : allocatedBalance s.newUserData = JsNum.num B := by
      simp [allocatedBalance, hfunl, hpar]
    have h3 : allocationInvalid s.newUserData = false := by
      simp [allocationInvalid, hallB, hfunl, JsNum.isNaN, JsNum.jlt]
      exact hB0
    have h4 : allocationExceeds cu s.newUserData = false := by
      simp [allocationExceeds, hallB, hBal, JsNum.jgt, JsNum.jlt]
    have hcond : (cu.role != Role.manager && !cu.isUnlimited) = true := by
      simp [bne_iff_ne, hrole, hunl]
    have hsub0 : cu.balance.sub (JsNum.num B) = JsNum.num 0 := by
      rw [hBal]
      simp [JsNum.sub]
    constructor <;>
      simp [handleAddUser, hcu, h1, h2, h3, h4, hcond, hsub0, hallB, hfunl]
  · intro hrole hunl hBal hfunl hpar
    have h4 : allocationExceeds cu s.newUserData = true := by
      have hlt : (JsNum.num (B + 1)).jgt (JsNum.num B) = true := by
        simp [JsNum.jgt, JsNum.jlt]
      simp [allocationExceeds, allocatedBalance, hfunl, hpar, hBal, bne_iff_ne,
        hrole, hunl, hlt]
    obtain ⟨c1, c2, c3, _, _⟩ := hrej (Or.inr (Or.inr (Or.inr h4)))
    exact ⟨c1, c2, c3⟩

/-- Witness for add_user_spec: carol allocates her entire balance of 100 to
a new employee row; the insert and the debit are issued and her mirrored
balance is exactly 0. -/
theorem add_user_witness :
    (handleAddUser "w2" carolFullAllocationState).1.currentUser =
      some { carolAccountant with balance := JsNum.num 0 } ∧
    (handleAddUser "w2" carolFullAllocationState).2 =
      [StoreOp.insertUser
        { id := "U-w2", username := "new1", password := some "p", name := "New",
          role := Role.employee, balance := JsNum.num 100, isUnlimited := false },
       StoreOp.updateUserBalance "a1" (JsNum.num 0)] := by
  have h := (add_user_spec "w2" carolFullAllocationState carolAccountant 100 rfl).2.2.1
    (by decide) rfl rfl rfl (by decide) (by norm_num) (by decide) (by decide)
  exact h
